import Mathlib

/-!
Verification development for the theveer19/ecommerce-backend repository.

The repository is a set of near-duplicate Express backends for one e-commerce
storefront.  We shallowly embed the request handlers that the specification's
claims are about:

* index.js contains three variants, separated in the file by document markers:
  - the first variant (lines 1-710), modelled below with the suffix `V1`;
  - the second variant (lines 710-1047), suffix `V2`;
  - the service-role variant (lines 1047-1318), suffix `SR`.
* src/unnamed/part_000 .. part_003 are further iterations, suffixes `P0`..`P3`.

External collaborators (the Supabase data-store client, the Razorpay gateway
client, Node's crypto module) are embedded as explicit state / outcome
parameters, except HMAC-SHA256, which is implemented concretely since the
signature-verification claims are about its use.
-/

namespace EcomBackend

/-! ## JavaScript value model

Handlers receive JSON fields.  For a field that the code treats numerically we
record whether it was absent (undefined/null), present but not numeric, a JSON
number, or a numeric string; `ℚ` stands for the (finite) numeric value. -/

/-- A JSON field that a handler reads as a number. -/
inductive JsVal where
  | absent
  | nonNumeric
  | num (q : ℚ)
  | numStr (q : ℚ)
deriving DecidableEq, Repr

/-- A JavaScript number, which may be NaN (e.g. parseFloat of undefined). -/
inductive JNum where
  | nan
  | num (q : ℚ)
deriving DecidableEq, Repr

/-- JavaScript Math.round: round half toward positive infinity. -/
def jsRound (q : ℚ) : ℤ := ⌊q + 1 / 2⌋

/-- parseFloat / numeric coercion of a JSON field: numbers and numeric strings
give their value, anything else gives NaN. -/
def jsParseFloat : JsVal → JNum
  | .num q => .num q
  | .numStr q => .num q
  | _ => .nan

/-- Truncation toward zero, as performed by JavaScript parseInt. -/
def jsTrunc (q : ℚ) : ℤ := if 0 ≤ q then ⌊q⌋ else ⌈q⌉

/-- parseInt of a JSON field. -/
def jsParseInt : JsVal → JNum
  | .num q => .num (jsTrunc q)
  | .numStr q => .num (jsTrunc q)
  | _ => .nan

/-- JavaScript `v || d` for an optional string field: undefined, null and the
empty string are falsy. -/
def jsOr (v : Option String) (d : String) : String :=
  match v with
  | some s => if s = "" then d else s
  | none => d

/-- JavaScript `v || null` for an optional string field. -/
def jsOrNull (v : Option String) : Option String :=
  match v with
  | some s => if s = "" then none else some s
  | none => none

/-! ## SHA-256 and HMAC-SHA256

The handlers call Node's `crypto.createHmac("sha256", secret).update(m).digest("hex")`.
We implement the algorithm concretely (FIPS 180-4 / RFC 2104) over byte lists,
with 32-bit words carried as `Nat` reduced mod 2^32. -/

/-- Truncate to a 32-bit word. -/
def w32 (n : Nat) : Nat := n % 4294967296

/-- Rotate a 32-bit word right by `n`. -/
def rotr (n x : Nat) : Nat := w32 ((x >>> n) ||| (x <<< (32 - n)))

def ch (x y z : Nat) : Nat := (x &&& y) ^^^ ((x ^^^ 4294967295) &&& z)

def maj (x y z : Nat) : Nat := (x &&& y) ^^^ (x &&& z) ^^^ (y &&& z)

def bigSigma0 (x : Nat) : Nat := rotr 2 x ^^^ rotr 13 x ^^^ rotr 22 x

def bigSigma1 (x : Nat) : Nat := rotr 6 x ^^^ rotr 11 x ^^^ rotr 25 x

def smallSigma0 (x : Nat) : Nat := rotr 7 x ^^^ rotr 18 x ^^^ (x >>> 3)

def smallSigma1 (x : Nat) : Nat := rotr 17 x ^^^ rotr 19 x ^^^ (x >>> 10)

/-- The 64 SHA-256 round constants (FIPS 180-4, written in decimal). -/
def shaK : List Nat :=
  [1116352408, 1899447441, 3049323471, 3921009573, 961987163, 1508970993,
   2453635748, 2870763221, 3624381080, 310598401, 607225278, 1426881987,
   1925078388, 2162078206, 2614888103, 3248222580, 3835390401, 4022224774,
   264347078, 604807628, 770255983, 1249150122, 1555081692, 1996064986,
   2554220882, 2821834349, 2952996808, 3210313671, 3336571891, 3584528711,
   113926993, 338241895, 666307205, 773529912, 1294757372, 1396182291,
   1695183700, 1986661051, 2177026350, 2456956037, 2730485921, 2820302411,
   3259730800, 3345764771, 3516065817, 3600352804, 4094571909, 275423344,
   430227734, 506948616, 659060556, 883997877, 958139571, 1322822218,
   1537002063, 1747873779, 1955562222, 2024104815, 2227730452, 2361852424,
   2428436474, 2756734187, 3204031479, 3329325298]

/-- The eight 32-bit words of a SHA-256 state / digest. -/
structure Hash8 where
  a : Nat
  b : Nat
  c : Nat
  d : Nat
  e : Nat
  f : Nat
  g : Nat
  h : Nat
deriving DecidableEq, Repr

/-- SHA-256 initial hash value (FIPS 180-4, written in decimal). -/
def shaH0 : Hash8 :=
  ⟨1779033703, 3144134277, 1013904242, 2773480762,
   1359893119, 2600822924, 528734635, 1541459225⟩

/-- Big-endian bytes of `n`, width `k`. -/
def toBytesBE (k n : Nat) : List Nat :=
  (List.range k).map (fun i => (n >>> (8 * (k - 1 - i))) % 256)

/-- SHA-256 message padding: append 0x80, zeros to 56 mod 64, then the bit
length as an 8-byte big-endian integer. -/
def padMessage (msg : List Nat) : List Nat :=
  msg ++ 128 :: List.replicate ((119 - msg.length % 64) % 64) 0 ++ toBytesBE 8 (msg.length * 8)

/-- Split into 64-byte chunks (fuel-driven structural recursion). -/
def chunksAux : Nat → List Nat → List (List Nat)
  | 0, _ => []
  | _, [] => []
  | fuel + 1, l => l.take 64 :: chunksAux fuel (l.drop 64)

def chunks64 (l : List Nat) : List (List Nat) := chunksAux (l.length / 64 + 1) l

/-- The sixteen 32-bit big-endian words of a 64-byte block. -/
def bytesToWords (block : List Nat) : List Nat :=
  (List.range 16).map (fun i =>
    block.getD (4 * i) 0 * 16777216 + block.getD (4 * i + 1) 0 * 65536 +
      block.getD (4 * i + 2) 0 * 256 + block.getD (4 * i + 3) 0)

def extendWord (w : List Nat) (i : Nat) : Nat :=
  w32 (smallSigma1 (w.getD (i - 2) 0) + w.getD (i - 7) 0 +
    smallSigma0 (w.getD (i - 15) 0) + w.getD (i - 16) 0)

/-- Message schedule: the 16 block words extended to 64. -/
def buildSchedule (block : List Nat) : List Nat :=
  (List.range 48).foldl (fun w j => w ++ [extendWord w (16 + j)]) (bytesToWords block)

def compressStep (st : Hash8) (kw : Nat × Nat) : Hash8 :=
  let t1 := w32 (st.h + bigSigma1 st.e + ch st.e st.f st.g + kw.1 + kw.2)
  let t2 := w32 (bigSigma0 st.a + maj st.a st.b st.c)
  ⟨w32 (t1 + t2), st.a, st.b, st.c, w32 (st.d + t1), st.e, st.f, st.g⟩

def compressBlock (h0 : Hash8) (block : List Nat) : Hash8 :=
  let st := (shaK.zip (buildSchedule block)).foldl compressStep h0
  ⟨w32 (h0.a + st.a), w32 (h0.b + st.b), w32 (h0.c + st.c), w32 (h0.d + st.d),
   w32 (h0.e + st.e), w32 (h0.f + st.f), w32 (h0.g + st.g), w32 (h0.h + st.h)⟩

/-- SHA-256 of a byte list. -/
def sha256Bytes (msg : List Nat) : Hash8 :=
  (chunks64 (padMessage msg)).foldl compressBlock shaH0

/-- The 32 digest bytes of a hash state. -/
def hash8Bytes (h : Hash8) : List Nat :=
  toBytesBE 4 h.a ++ toBytesBE 4 h.b ++ toBytesBE 4 h.c ++ toBytesBE 4 h.d ++
    toBytesBE 4 h.e ++ toBytesBE 4 h.f ++ toBytesBE 4 h.g ++ toBytesBE 4 h.h

/-- Lowercase hexadecimal digit. -/
def nibbleChar (n : Nat) : Char :=
  match n with
  | 0 => '0' | 1 => '1' | 2 => '2' | 3 => '3' | 4 => '4' | 5 => '5' | 6 => '6' | 7 => '7'
  | 8 => '8' | 9 => '9' | 10 => 'a' | 11 => 'b' | 12 => 'c' | 13 => 'd' | 14 => 'e' | _ => 'f'

/-- The eight lowercase hex characters of a 32-bit word. -/
def wordHexChars (w : Nat) : List Char :=
  [nibbleChar ((w >>> 28) % 16), nibbleChar ((w >>> 24) % 16), nibbleChar ((w >>> 20) % 16),
   nibbleChar ((w >>> 16) % 16), nibbleChar ((w >>> 12) % 16), nibbleChar ((w >>> 8) % 16),
   nibbleChar ((w >>> 4) % 16), nibbleChar (w % 16)]

/-- The 64 lowercase hex characters of a digest. -/
def hexChars (h : Hash8) : List Char :=
  wordHexChars h.a ++ wordHexChars h.b ++ wordHexChars h.c ++ wordHexChars h.d ++
    wordHexChars h.e ++ wordHexChars h.f ++ wordHexChars h.g ++ wordHexChars h.h

/-- The UTF-8 bytes of a string. -/
def strBytes (s : String) : List Nat := s.toUTF8.toList.map (fun b => b.toNat)

/-- HMAC-SHA256 over byte lists (RFC 2104, block size 64). -/
def hmacSha256 (key msg : List Nat) : Hash8 :=
  let k0 := if 64 < key.length then hash8Bytes (sha256Bytes key) else key
  let kp := k0 ++ List.replicate (64 - k0.length) 0
  sha256Bytes ((kp.map (fun b => b ^^^ 92)) ++
    hash8Bytes (sha256Bytes ((kp.map (fun b => b ^^^ 54)) ++ msg)))

/-- SHA-256 of a string, as a lowercase hex digest. -/
def sha256Hex (msg : String) : String := String.mk (hexChars (sha256Bytes (strBytes msg)))

/-- Node `crypto.createHmac("sha256", key).update(msg).digest("hex")`:
HMAC-SHA256 rendered as a lowercase hex digest. -/
def hmacSha256Hex (key msg : String) : String :=
  String.mk (hexChars (hmacSha256 (strBytes key) (strBytes msg)))

/-! ## POST /create-order

The observable outcome of a create-order request: either a 400 validation
response before any gateway call, or a call to the gateway's order-create
operation carrying the integer minor-unit amount. -/

/-- Outcome of a create-order handler: 400 before any gateway call, or a
gateway order-create call with the given integer paise amount. -/
inductive CreateResult where
  | badRequest (msg : String)
  | gatewayCall (paise : ℤ)
deriving DecidableEq, Repr

/-- Whether a create-order outcome is a 400 validation error (equivalently:
the gateway was not called). -/
def isBadRequest : CreateResult → Bool
  | .badRequest _ => true
  | .gatewayCall _ => false

/-- index.js first variant, lines 82-142 (the service-role variant at lines
1093-1125 has the identical validation and conversion): rejects
`!amount || isNaN(amount) || amount < 1` with 400, otherwise calls the gateway
with `Math.round(parseFloat(amount) * 100)`.  A numeric value below 1 is
rejected either by the `< 1` comparison or (for 0) by JS truthiness. -/
def createOrderV1 (amount : JsVal) : CreateResult :=
  match amount with
  | .num q => if q < 1 then .badRequest "Invalid amount. Minimum amount is 1 INR"
              else .gatewayCall (jsRound (q * 100))
  | .numStr q => if q < 1 then .badRequest "Invalid amount. Minimum amount is 1 INR"
                 else .gatewayCall (jsRound (q * 100))
  | _ => .badRequest "Invalid amount. Minimum amount is 1 INR"

/-- index.js second variant, lines 816-861: explicit undefined/null check,
parseFloat of string amounts, rejects `isNaN(amount) || amount <= 0`, converts
with `Math.round(amount * 100)`, and rejects paise above MAX_PAISA = 10000000
before the gateway call. -/
def createOrderV2 (amount : JsVal) : CreateResult :=
  match amount with
  | .absent => .badRequest "Missing amount in request body"
  | .nonNumeric => .badRequest "amount must be a positive number (INR)"
  | .num q =>
      if q ≤ 0 then .badRequest "amount must be a positive number (INR)"
      else if 10000000 < jsRound (q * 100) then .badRequest "Amount exceeds maximum allowed"
      else .gatewayCall (jsRound (q * 100))
  | .numStr q =>
      if q ≤ 0 then .badRequest "amount must be a positive number (INR)"
      else if 10000000 < jsRound (q * 100) then .badRequest "Amount exceeds maximum allowed"
      else .gatewayCall (jsRound (q * 100))

/-- part_000, lines 29-55: requires a JSON number (`typeof amount !== "number"`
rejects numeric strings), rejects non-positive values, then rounds the
major-unit amount itself (`Math.round(amount)`, no multiplication by 100) and
applies the 10000000 cap to that rounded value. -/
def createOrderP0 (amount : JsVal) : CreateResult :=
  match amount with
  | .num q =>
      if q ≤ 0 then .badRequest "Invalid amount"
      else if 10000000 < jsRound q then .badRequest "Amount exceeds maximum amount allowed."
      else .gatewayCall (jsRound q)
  | _ => .badRequest "Invalid amount"

/-- part_003, lines 33-47: no validation at all; the gateway is always called
with `amount * 100`, unrounded (NaN when the field is absent or non-numeric). -/
def createOrderP3 (amount : JsVal) : JNum :=
  match amount with
  | .num q => .num (q * 100)
  | .numStr q => .num (q * 100)
  | _ => .nan

/-! ## POST /save-order: request shape and validation -/

/-- The `shipping_info` object of a save-order request.  A field holds
`none` when absent and `some ""` when present but empty; both are falsy in the
JS checks. -/
structure ShippingInfo where
  firstName : Option String
  lastName : Option String
  email : Option String
  phone : Option String
  address : Option String
  city : Option String
  state : Option String
  zipCode : Option String
  country : Option String
deriving DecidableEq, Repr

/-- A line item of a save-order request. -/
structure Item where
  id : Option String
  name : Option String
  quantity : JsVal
  price : JsVal
  image_url : Option String
  images : Option (List String)
deriving DecidableEq, Repr

/-- The body of a save-order request as read by the index.js first variant. -/
structure OrderReq where
  user_id : Option String
  items : Option (List Item)
  total_amount : JsVal
  subtotal : JsVal
  shipping_fee : JsVal
  tax : JsVal
  payment_method : String
  payment_id : Option String
  shipping_info : Option ShippingInfo
deriving DecidableEq, Repr

/-- JS truthiness of an optional string field. -/
def present (v : Option String) : Bool :=
  match v with
  | none => false
  | some s => !(s == "")

/-- The required shipping fields checked by validateOrderData (index.js 56). -/
def requiredShippingFields : List String :=
  ["firstName", "lastName", "email", "phone", "address", "city", "state", "zipCode"]

/-- Field lookup `data.shipping_info[field]`. -/
def shippingField (si : ShippingInfo) : String → Option String
  | "firstName" => si.firstName
  | "lastName" => si.lastName
  | "email" => si.email
  | "phone" => si.phone
  | "address" => si.address
  | "city" => si.city
  | "state" => si.state
  | "zipCode" => si.zipCode
  | _ => none

/-- `requiredShippingFields.filter(field => !data.shipping_info[field])`
(index.js 57). -/
def missingShippingFields (si : ShippingInfo) : List String :=
  requiredShippingFields.filter (fun f => !(present (shippingField si f)))

/-- The validation errors collected by validateOrderData, kept structured
(the source pushes the corresponding message strings; the shipping message
embeds the joined list of missing fields). -/
inductive VErr where
  | itemsRequired
  | totalRequired
  | shippingRequired
  | missingShipping (fields : List String)
deriving DecidableEq, Repr

/-- `!data.total_amount || isNaN(data.total_amount) || data.total_amount <= 0`
fails exactly on a numeric value greater than zero (a zero value is falsy, a
non-numeric one trips isNaN, a numeric-string compares numerically). -/
def totalValid (v : JsVal) : Bool :=
  match v with
  | .num q => decide (0 < q)
  | .numStr q => decide (0 < q)
  | _ => false

/-- validateOrderData, index.js lines 42-64. -/
def validateOrderData (d : OrderReq) : List VErr :=
  (match d.items with
   | none => [.itemsRequired]
   | some l => if l.length = 0 then [.itemsRequired] else []) ++
  (if totalValid d.total_amount then [] else [.totalRequired]) ++
  (match d.shipping_info with
   | none => [.shippingRequired]
   | some si =>
       if missingShippingFields si = [] then [] else [.missingShipping (missingShippingFields si)])

/-! ## POST /save-order: the first variant's order row and flow -/

/-- The shipping_address JSON object built at index.js 196-205.  A template
interpolation of an undefined field renders the string "undefined". -/
structure Address where
  name : String
  email : Option String
  phone : Option String
  street : Option String
  city : Option String
  state : Option String
  pincode : Option String
  country : String
deriving DecidableEq, Repr

def mkAddress (si : ShippingInfo) : Address :=
  { name := ((si.firstName.getD "undefined") ++ " " ++ (si.lastName.getD "undefined")).trim
    email := si.email
    phone := si.phone
    street := si.address
    city := si.city
    state := si.state
    pincode := si.zipCode
    country := jsOr si.country "India" }

/-- A row of the orders table as inserted by the first variant. -/
structure OrderRow where
  user_id : Option String
  total_amount : JNum
  subtotal : JNum
  shipping_fee : JNum
  tax : JNum
  payment_method : String
  payment_id : Option String
  status : String
  shipping_address : Address
deriving DecidableEq, Repr

/-- The orderData object built at index.js lines 187-206: unconditional
parseFloat on every monetary field, `payment_id || null` passthrough, status
pending only for cash-on-delivery. -/
def orderDataV1 (d : OrderReq) (si : ShippingInfo) : OrderRow :=
  { user_id := d.user_id
    total_amount := jsParseFloat d.total_amount
    subtotal := jsParseFloat d.subtotal
    shipping_fee := jsParseFloat d.shipping_fee
    tax := jsParseFloat d.tax
    payment_method := d.payment_method
    payment_id := jsOrNull d.payment_id
    status := if d.payment_method = "cod" then "pending" else "confirmed"
    shipping_address := mkAddress si }

/-- A row of the order_items table. -/
structure OrderItemRow where
  order_id : Nat
  product_id : Option String
  product_name : String
  quantity : ℤ
  price_at_time : ℚ
  image_url : Option String
deriving DecidableEq, Repr

/-- `parseInt(item.quantity) || 1` (NaN and 0 both fall back to 1). -/
def quantityOf (v : JsVal) : ℤ :=
  match v with
  | .num q => if jsTrunc q = 0 then 1 else jsTrunc q
  | .numStr q => if jsTrunc q = 0 then 1 else jsTrunc q
  | _ => 1

/-- `parseFloat(item.price) || 0`. -/
def priceOf (v : JsVal) : ℚ :=
  match jsParseFloat v with
  | .nan => 0
  | .num q => q

/-- `item.image_url || item.images?.[0] || null`. -/
def imageOf (it : Item) : Option String :=
  match jsOrNull it.image_url with
  | some s => some s
  | none => jsOrNull (it.images.bind List.head?)

/-- The order_items row built at index.js 224-231. -/
def itemRowV1 (oid : Nat) (it : Item) : OrderItemRow :=
  { order_id := oid
    product_id := jsOrNull it.id
    product_name := jsOr it.name "Unnamed Product"
    quantity := quantityOf it.quantity
    price_at_time := priceOf it.price
    image_url := imageOf it }

/-- The two tables the save-order flow writes. -/
structure DbV1 where
  orders : List (Nat × OrderRow)
  order_items : List OrderItemRow
deriving DecidableEq, Repr

/-- Outcomes of the external data-store calls made by one save-order request:
the connection test, the orders insert (an error, or the store-assigned id of
the new row), and the order_items batch insert. -/
structure EnvV1 where
  connectionError : Option String
  orderInsert : Except String Nat
  itemsInsertError : Option String
deriving Repr

/-- Response of the first variant's save-order handler. -/
inductive SaveResp where
  | validationFailed (details : List VErr)
  | serverError (message : String)
  | saved (oid : Nat) (itemsCount : Nat)
deriving DecidableEq, Repr

/-- index.js lines 145-306.  Validation runs before any database call; an
order-insert error aborts; an item-insert error triggers the compensating
delete of the just-inserted order row and reports the item-insert failure.
The best-effort user_addresses write (lines 252-277) touches neither table and
is elided.  A request whose shipping_info is absent cannot pass validation;
if it somehow reached the row construction the handler would throw and the
outer catch would answer 500, which the unreachable branch mirrors. -/
def saveOrderV1 (env : EnvV1) (d : OrderReq) (db : DbV1) : SaveResp × DbV1 :=
  let errs := validateOrderData d
  if errs.isEmpty then
    match env.connectionError with
    | some e => (.serverError ("Database connection failed: " ++ e), db)
    | none =>
      match d.shipping_info with
      | none => (.serverError "Cannot read properties of undefined", db)
      | some si =>
        match env.orderInsert with
        | .error e => (.serverError ("Failed to create order: " ++ e), db)
        | .ok oid =>
          let db1 : DbV1 := ⟨db.orders ++ [(oid, orderDataV1 d si)], db.order_items⟩
          let rows := (d.items.getD []).map (itemRowV1 oid)
          match env.itemsInsertError with
          | some e =>
              (.serverError ("Failed to save order items: " ++ e),
               ⟨db1.orders.filter (fun r => r.1 ≠ oid), db1.order_items⟩)
          | none => (.saved oid rows.length, ⟨db1.orders, db1.order_items ++ rows⟩)
  else (.validationFailed errs, db)

/-- GET /orders/:id (index.js 482-537) restricted to the store-assigned id
match: none means the 404 not-found answer. -/
def getOrderById (db : DbV1) (oid : Nat) : Option OrderRow :=
  (db.orders.find? (fun r => r.1 = oid)).map Prod.snd

/-! ## POST /save-order: the part_002 variant (no compensating delete) -/

/-- The body of a save-order request as read by part_002. -/
structure OrderReqP2 where
  user_id : Option String
  items : Option (List Item)
  total_amount : JsVal
  payment_method : String
  payment_id : Option String
  shipping_info : Option ShippingInfo
deriving DecidableEq, Repr

/-- part_002's total check `!total_amount || total_amount <= 0` rejects an
absent or zero value and a non-positive number; a non-numeric string is truthy
and its numeric comparison is false, so it passes. -/
def totalInvalidP2 (v : JsVal) : Bool :=
  match v with
  | .absent => true
  | .nonNumeric => false
  | .num q => decide (q ≤ 0)
  | .numStr q => decide (q ≤ 0)

/-- The orders row inserted by part_002 (lines 114-127): raw values, an
order_number generated by the handler, shipping_info stored as-is. -/
structure OrderRowP2 where
  user_id : Option String
  total_amount : JsVal
  payment_method : String
  payment_id : Option String
  status : String
  order_number : String
  shipping_address : Option ShippingInfo
deriving DecidableEq, Repr

/-- JavaScript `v || 1` on a JSON field (0 and absent fall back to 1; a
non-numeric value is truthy and kept). -/
def jsValOrOne (v : JsVal) : JsVal :=
  match v with
  | .absent => .num 1
  | .num q => if q = 0 then .num 1 else .num q
  | x => x

/-- The order_items row built by part_002 (lines 135-140): raw id and price,
`item.quantity || 1`. -/
structure ItemRowP2 where
  order_id : Nat
  product_id : Option String
  quantity : JsVal
  price_at_time : JsVal
deriving DecidableEq, Repr

def itemRowP2 (oid : Nat) (it : Item) : ItemRowP2 :=
  { order_id := oid
    product_id := it.id
    quantity := jsValOrOne it.quantity
    price_at_time := it.price }

structure DbP2 where
  orders : List (Nat × OrderRowP2)
  order_items : List ItemRowP2
deriving DecidableEq, Repr

/-- Data-store outcomes for one part_002 / service-role save-order request. -/
structure EnvP2 where
  orderInsert : Except String Nat
  itemsInsertError : Option String
deriving Repr

inductive SaveRespP2 where
  | badRequest (msg : String)
  | serverError (message : String)
  | saved (oid : Nat)
deriving DecidableEq, Repr

/-- part_002 lines 88-174.  On an item-insert failure the handler throws the
error (its comment calls a delete of the created order "optional" and does not
perform one), so the order row stays in the table and the 500 response carries
the item-insert error message. -/
def saveOrderP2 (orderNumber : String) (env : EnvP2) (d : OrderReqP2) (db : DbP2) :
    SaveRespP2 × DbP2 :=
  match d.items with
  | none => (.badRequest "Items missing", db)
  | some l =>
    if l.length = 0 then (.badRequest "Items missing", db)
    else if totalInvalidP2 d.total_amount then (.badRequest "Invalid amount", db)
    else
      let row : OrderRowP2 :=
        { user_id := d.user_id
          total_amount := d.total_amount
          payment_method := d.payment_method
          payment_id := jsOrNull d.payment_id
          status := if d.payment_method = "cod" then "pending" else "confirmed"
          order_number := orderNumber
          shipping_address := d.shipping_info }
      match env.orderInsert with
      | .error e => (.serverError e, db)
      | .ok oid =>
        let db1 : DbP2 := ⟨db.orders ++ [(oid, row)], db.order_items⟩
        match env.itemsInsertError with
        | some e => (.serverError e, db1)
        | none => (.saved oid, ⟨db1.orders, db1.order_items ++ l.map (itemRowP2 oid)⟩)

/-- Read of an order row by store-assigned id in the part_002 tables. -/
def getOrderByIdP2 (db : DbP2) (oid : Nat) : Option OrderRowP2 :=
  (db.orders.find? (fun r => r.1 = oid)).map Prod.snd

/-! ## POST /save-order: the service-role variant -/

/-- The `payment_details` object of a service-role save-order request. -/
structure PaymentDetails where
  razorpay_payment_id : Option String
  razorpay_order_id : Option String
deriving DecidableEq, Repr

/-- The body of a save-order request as read by the service-role variant. -/
structure OrderReqSR where
  user_id : Option String
  items : Option (List Item)
  total_amount : JsVal
  subtotal : JsVal
  shipping_fee : JsVal
  tax : JsVal
  payment_method : String
  payment_details : Option PaymentDetails
  shipping_info : Option ShippingInfo
deriving DecidableEq, Repr

/-- index.js lines 1153-1154: the payment id is taken from payment_details
only when payment_method is "razorpay", and forced to null otherwise. -/
def actualPaymentId (d : OrderReqSR) : Option String :=
  if d.payment_method = "razorpay" then d.payment_details.bind PaymentDetails.razorpay_payment_id
  else none

/-- index.js lines 1156-1157: likewise for the gateway order id. -/
def razorpayOrderIdOf (d : OrderReqSR) : Option String :=
  if d.payment_method = "razorpay" then d.payment_details.bind PaymentDetails.razorpay_order_id
  else none

/-- The shipping_address JSON built at index.js 1174-1183 (optional chaining
with empty-string name parts and null fallbacks). -/
def mkAddressSR (si : Option ShippingInfo) : Address :=
  { name := ((jsOr (si.bind ShippingInfo.firstName) "") ++ " " ++
      (jsOr (si.bind ShippingInfo.lastName) "")).trim
    email := jsOrNull (si.bind ShippingInfo.email)
    phone := jsOrNull (si.bind ShippingInfo.phone)
    street := jsOrNull (si.bind ShippingInfo.address)
    city := jsOrNull (si.bind ShippingInfo.city)
    state := jsOrNull (si.bind ShippingInfo.state)
    pincode := jsOrNull (si.bind ShippingInfo.zipCode)
    country := jsOr (si.bind ShippingInfo.country) "India" }

/-- The orders row inserted by the service-role variant. -/
structure OrderRowSR where
  user_id : Option String
  total_amount : JNum
  subtotal : JNum
  shipping_fee : JNum
  tax : JNum
  payment_method : String
  payment_id : Option String
  razorpay_order_id : Option String
  status : String
  shipping_address : Address
deriving DecidableEq, Repr

/-- The orderData object built at index.js lines 1161-1186. -/
def orderDataSR (d : OrderReqSR) : OrderRowSR :=
  { user_id := d.user_id
    total_amount := jsParseFloat d.total_amount
    subtotal := jsParseFloat d.subtotal
    shipping_fee := jsParseFloat d.shipping_fee
    tax := jsParseFloat d.tax
    payment_method := d.payment_method
    payment_id := actualPaymentId d
    razorpay_order_id := razorpayOrderIdOf d
    status := if d.payment_method = "cod" then "pending" else "confirmed"
    shipping_address := mkAddressSR d.shipping_info }

structure DbSR where
  orders : List (Nat × OrderRowSR)
  order_items : List OrderItemRow
deriving DecidableEq, Repr

inductive SaveRespSR where
  | badRequest (msg : String)
  | serverError (message : String)
  | saved (oid : Nat)
deriving DecidableEq, Repr

/-- index.js lines 1128-1247.  Validation checks only the items array and the
firstName/phone/address shipping fields (each with a single fixed message);
total_amount is not validated.  An item-insert failure triggers the
compensating delete of the order row and a 500 carrying the item-insert error
message. -/
def saveOrderSR (env : EnvP2) (d : OrderReqSR) (db : DbSR) : SaveRespSR × DbSR :=
  match d.items with
  | none => (.badRequest "Items required", db)
  | some l =>
    if l.length = 0 then (.badRequest "Items required", db)
    else
      let row := orderDataSR d
      if !(present (d.shipping_info.bind ShippingInfo.firstName)) ∨
         !(present (d.shipping_info.bind ShippingInfo.phone)) ∨
         !(present (d.shipping_info.bind ShippingInfo.address)) then
        (.badRequest "Incomplete shipping details", db)
      else
        match env.orderInsert with
        | .error e => (.serverError ("Order Insert Failed: " ++ e), db)
        | .ok oid =>
          let db1 : DbSR := ⟨db.orders ++ [(oid, row)], db.order_items⟩
          match env.itemsInsertError with
          | some e =>
              (.serverError e, ⟨db1.orders.filter (fun r => r.1 ≠ oid), db1.order_items⟩)
          | none => (.saved oid, ⟨db1.orders, db1.order_items ++ l.map (itemRowV1 oid)⟩)

/-- Read of an order row by store-assigned id in the service-role tables. -/
def getOrderByIdSR (db : DbSR) (oid : Nat) : Option OrderRowSR :=
  (db.orders.find? (fun r => r.1 = oid)).map Prod.snd

/-! ## POST /verify-payment -/

/-- A row of the orders table as seen by the verification and webhook
handlers: only the columns they filter on or update. -/
structure PayOrderRow where
  payment_id : Option String
  order_number : String
  razorpay_order_id : Option String
  status : String
deriving DecidableEq, Repr

/-- Response of a verify-payment handler.  The 200 body of the first variant
and of part_001/part_002 carries the payment id; the service-role variant's
does not. -/
inductive VerifyResp where
  | missingData
  | verified (payment_id : Option String)
  | invalidSignature
deriving DecidableEq, Repr

/-- The update of index.js lines 444-451: `.eq('payment_id', o)` chained with
`.or('payment_id.eq.o,order_number.eq.o')`; chained filters conjoin. -/
def confirmRowV1 (o p : String) (r : PayOrderRow) : PayOrderRow :=
  if r.payment_id = some o ∧ (r.payment_id = some o ∨ r.order_number = o) then
    { r with status := "confirmed", payment_id := some p }
  else r

/-- index.js first variant, lines 421-479.  The status update sits in its own
try/catch whose failure is only logged (`updateThrows` models a throwing
store call), so the verified response survives it. -/
def verifyPaymentV1 (key : String) (updateThrows : Bool) (o p s : String)
    (db : List PayOrderRow) : VerifyResp × List PayOrderRow :=
  if o = "" ∨ p = "" ∨ s = "" then (.missingData, db)
  else if s = hmacSha256Hex key (o ++ "|" ++ p) then
    (.verified (some p), if updateThrows then db else db.map (confirmRowV1 o p))
  else (.invalidSignature, db)

/-- The update of index.js lines 1267-1273: matched on the razorpay_order_id
column. -/
def confirmRowSR (o p : String) (r : PayOrderRow) : PayOrderRow :=
  if r.razorpay_order_id = some o then { r with status := "confirmed", payment_id := some p }
  else r

/-- index.js service-role variant, lines 1250-1286.  A returned update error
is only logged; the 200 body is `{success, message}` with no payment id. -/
def verifyPaymentSR (key : String) (updateError : Option String) (o p s : String)
    (db : List PayOrderRow) : VerifyResp × List PayOrderRow :=
  if o = "" ∨ p = "" ∨ s = "" then (.missingData, db)
  else if s = hmacSha256Hex key (o ++ "|" ++ p) then
    (.verified none,
     match updateError with
     | some _ => db
     | none => db.map (confirmRowSR o p))
  else (.invalidSignature, db)

/-- part_001 lines 247-276: acknowledges any request whose three fields are
present, with no signature computation and no order update. -/
def verifyPaymentP1 (o p s : String) : VerifyResp :=
  if o = "" ∨ p = "" ∨ s = "" then .missingData else .verified (some p)

/-! ## POST /webhook/razorpay -/

/-- The payment entity of a webhook event payload. -/
structure WebhookPayment where
  id : String
  order_id : String
deriving DecidableEq, Repr

inductive WebhookResp where
  | notConfigured
  | invalidSignature
  | received
deriving DecidableEq, Repr

/-- The webhook updates (index.js 619-640): rows whose payment_id column
equals the event's gateway order id get the new status and payment id. -/
def updateRowWebhook (oid p st : String) (r : PayOrderRow) : PayOrderRow :=
  if r.payment_id = some oid then { r with status := st, payment_id := some p }
  else r

/-- index.js lines 585-657: signature over the serialized request body with
the distinct webhook secret; then dispatch on the event type.  The
`order.paid` case only logs, and unrecognized events fall through; both
answer 200 with no update. -/
def webhookRazorpay (secret : Option String) (headerSig rawBody : String)
    (event : String) (payment : Option WebhookPayment) (db : List PayOrderRow) :
    WebhookResp × List PayOrderRow :=
  match secret with
  | none => (.notConfigured, db)
  | some ws =>
    if ws = "" then (.notConfigured, db)
    else if headerSig = hmacSha256Hex ws rawBody then
      if event = "payment.captured" then
        match payment with
        | some pay => (.received, db.map (updateRowWebhook pay.order_id pay.id "confirmed"))
        | none => (.received, db)
      else if event = "payment.failed" then
        match payment with
        | some pay => (.received, db.map (updateRowWebhook pay.order_id pay.id "failed"))
        | none => (.received, db)
      else (.received, db)
    else (.invalidSignature, db)

/-! ## Concrete fixtures used by witnesses and counterexamples -/

/-- A complete shipping_info object (spec section 8, scenario 7). -/
def exShip : ShippingInfo :=
  ⟨some "A", some "B", some "a@b.com", some "9999999999", some "X", some "Y", some "Z",
   some "123456", none⟩

/-- A well-formed line item. -/
def exItem : Item := ⟨some "p1", some "Shirt", .num 2, .num 499, none, none⟩

/-- A save-order request that passes validateOrderData. -/
def exReqV1 : OrderReq :=
  ⟨none, some [exItem], .num 998, .num 998, .num 0, .num 0, "cod", none, some exShip⟩

/-- A save-order request with an empty items array. -/
def exReqEmptyItems : OrderReq :=
  ⟨none, some [], .num 998, .num 998, .num 0, .num 0, "cod", none, some exShip⟩

/-- A cash-on-delivery request in which the caller nevertheless supplied a
payment_id. -/
def codReqV1 : OrderReq :=
  ⟨none, some [exItem], .num 998, .num 998, .num 0, .num 0, "cod", some "pay_client",
   some exShip⟩

/-- A valid save-order request that omits subtotal, shipping_fee and tax. -/
def exReqNoMon : OrderReq :=
  ⟨none, some [exItem], .num 998, .absent, .absent, .absent, "cod", none, some exShip⟩

/-- A part_002 save-order request that passes that variant's validation. -/
def exReqP2 : OrderReqP2 :=
  ⟨none, some [exItem], .num 998, "razorpay", some "pay_1", some exShip⟩

/-- A cash-on-delivery service-role request carrying caller-supplied payment
identifiers inside payment_details. -/
def codReqSR : OrderReqSR :=
  ⟨none, some [exItem], .num 998, .num 998, .num 0, .num 0, "cod",
   some ⟨some "pay_evil", some "order_evil"⟩, some exShip⟩

/-- A service-role save-order request with no total_amount at all (items and
the checked shipping fields are fine). -/
def exReqSRnoTotal : OrderReqSR :=
  ⟨none, some [exItem], .absent, .absent, .absent, .absent, "cod", none, some exShip⟩

/-- A stored order row as the verification handlers see it. -/
def exPayRow : PayOrderRow := ⟨some "order_1", "ORD1", some "order_1", "pending"⟩

/-! ## General digest lemmas -/

theorem hexChars_length (h : Hash8) : (hexChars h).length = 64 := rfl

/-- An HMAC-SHA256 hex digest always has 64 characters. -/
theorem hmacSha256Hex_length (key msg : String) : (hmacSha256Hex key msg).length = 64 := rfl

/-- A string of the wrong length is never an HMAC-SHA256 hex digest. -/
theorem ne_hmacHex_of_length {s : String} (key msg : String) (h : s.length ≠ 64) :
    s ≠ hmacSha256Hex key msg := by
  intro e
  exact h (by rw [e, hmacSha256Hex_length])

/-- The empty string is never an HMAC-SHA256 hex digest. -/
theorem hmacHex_ne_empty (key msg : String) : hmacSha256Hex key msg ≠ "" := by
  intro e
  have h := hmacSha256Hex_length key msg
  rw [e] at h
  simp at h

/-- Deleting an id from the orders table makes a read of that id return
no row, regardless of what else the table holds. -/
theorem find?_filter_ne {α : Type} (l : List (Nat × α)) (oid : Nat) :
    (l.filter (fun r => r.1 ≠ oid)).find? (fun r => r.1 = oid) = none := by
  rw [List.find?_eq_none]
  intro x hx
  have h := List.mem_filter.mp hx
  simpa using h.2

/-! ## Claim C2 -/

/-- Claim C2 as stated fails on the code: the first /create-order variant
rejects the positive amount 0.5 with a 400 validation error (its minimum is
1 INR), although the claim demands that every positive numeric amount be
passed to the gateway as round(a x 100). -/
theorem claim_C2_counterexample :
    createOrderV1 (JsVal.num (1 / 2)) =
      CreateResult.badRequest "Invalid amount. Minimum amount is 1 INR" ∧
    (0 : ℚ) < 1 / 2 := by
  constructor
  · simp only [createOrderV1]
    rw [if_pos (by norm_num)]
  · norm_num

/-- Claim C2 amended: in the first and service-role /create-order variants a
numeric or numeric-string amount of at least 1 reaches the gateway as the
integer round(a x 100) and everything else (absent, non-numeric, below 1) is
rejected with a 400 validation error and no gateway call; the second variant
behaves as the claim states for positive amounts within the paise cap; the
part_000 variant passes round(a) with no x100 conversion and rejects numeric
strings; the part_003 variant validates nothing and passes a x 100 unrounded
(NaN when the amount is absent). -/
theorem claim_C2_theorem :
    (∀ q : ℚ, 1 ≤ q →
      createOrderV1 (.num q) = .gatewayCall (jsRound (q * 100)) ∧
      createOrderV1 (.numStr q) = .gatewayCall (jsRound (q * 100))) ∧
    (∀ q : ℚ, q < 1 →
      isBadRequest (createOrderV1 (.num q)) = true ∧
      isBadRequest (createOrderV1 (.numStr q)) = true) ∧
    isBadRequest (createOrderV1 .absent) = true ∧
    isBadRequest (createOrderV1 .nonNumeric) = true ∧
    (∀ q : ℚ, 0 < q → jsRound (q * 100) ≤ 10000000 →
      createOrderV2 (.num q) = .gatewayCall (jsRound (q * 100)) ∧
      createOrderV2 (.numStr q) = .gatewayCall (jsRound (q * 100))) ∧
    (∀ q : ℚ, q ≤ 0 →
      isBadRequest (createOrderV2 (.num q)) = true ∧
      isBadRequest (createOrderV2 (.numStr q)) = true) ∧
    isBadRequest (createOrderV2 .absent) = true ∧
    isBadRequest (createOrderV2 .nonNumeric) = true ∧
    (∀ q : ℚ, 0 < q → jsRound q ≤ 10000000 →
      createOrderP0 (.num q) = .gatewayCall (jsRound q)) ∧
    (∀ q : ℚ, isBadRequest (createOrderP0 (.numStr q)) = true) ∧
    (∀ q : ℚ, createOrderP3 (.num q) = .num (q * 100)) ∧
    createOrderP3 .absent = .nan := by
  refine ⟨?_, ?_, rfl, rfl, ?_, ?_, rfl, rfl, ?_, ?_, ?_, rfl⟩
  · intro q h
    have h2 : ¬ q < 1 := not_lt.mpr h
    exact ⟨by simp [createOrderV1, h2], by simp [createOrderV1, h2]⟩
  · intro q h
    exact ⟨by simp [createOrderV1, h, isBadRequest], by simp [createOrderV1, h, isBadRequest]⟩
  · intro q h1 h2
    have h3 : ¬ q ≤ 0 := not_le.mpr h1
    have h4 : ¬ 10000000 < jsRound (q * 100) := not_lt.mpr h2
    exact ⟨by simp [createOrderV2, h3, h4], by simp [createOrderV2, h3, h4]⟩
  · intro q h
    exact ⟨by simp [createOrderV2, h, isBadRequest], by simp [createOrderV2, h, isBadRequest]⟩
  · intro q h1 h2
    have h3 : ¬ q ≤ 0 := not_le.mpr h1
    have h4 : ¬ 10000000 < jsRound q := not_lt.mpr h2
    simp [createOrderP0, h3, h4]
  · intro q
    simp [createOrderP0, isBadRequest]
  · intro q
    simp [createOrderP3]

/-- Concrete instances of the amended claim C2. -/
theorem claim_C2_witness :
    createOrderV1 (JsVal.num 5) = CreateResult.gatewayCall (jsRound (5 * 100)) ∧
    isBadRequest (createOrderV1 JsVal.absent) = true ∧
    createOrderV2 (JsVal.num 5) = CreateResult.gatewayCall (jsRound (5 * 100)) := by
  obtain ⟨h1, _, h3, _, h5, _⟩ := claim_C2_theorem
  exact ⟨(h1 5 (by norm_num)).1, h3, (h5 5 (by norm_num) (by norm_num [jsRound])).1⟩

/-! ## Claim C3 -/

/-- Claim C3 as stated fails on the code: the first /create-order variant has
no upper-bound check, so the amount 200000 INR (20000000 paise, above the
10000000-paise cap) is passed straight to the gateway instead of being
rejected with a client error. -/
theorem claim_C3_counterexample :
    createOrderV1 (JsVal.num 200000) = CreateResult.gatewayCall 20000000 ∧
    (10000000 : ℤ) < 20000000 := by
  constructor
  · have h : ¬ (200000 : ℚ) < 1 := by norm_num
    have h2 : jsRound ((200000 : ℚ) * 100) = 20000000 := by
      norm_num [jsRound]
    simp [createOrderV1, h, h2]
  · norm_num

/-- Claim C3 amended: the upper-bound check exists only in the second
/create-order variant, which rejects any amount whose rounded paise value
exceeds 10000000 with a 400 error and no gateway call; the first and
service-role variants call the gateway for every amount of at least 1. -/
theorem claim_C3_theorem :
    ∀ q : ℚ, 0 < q → 10000000 < jsRound (q * 100) →
      createOrderV2 (.num q) = .badRequest "Amount exceeds maximum allowed" ∧
      createOrderV2 (.numStr q) = .badRequest "Amount exceeds maximum allowed" ∧
      isBadRequest (createOrderV2 (.num q)) = true := by
  intro q h1 h2
  have h3 : ¬ q ≤ 0 := not_le.mpr h1
  refine ⟨by simp [createOrderV2, h3, h2], by simp [createOrderV2, h3, h2], ?_⟩
  simp [createOrderV2, h3, h2, isBadRequest]

/-- Concrete instance of the amended claim C3. -/
theorem claim_C3_witness :
    createOrderV2 (JsVal.num 200000) = CreateResult.badRequest "Amount exceeds maximum allowed" :=
  (claim_C3_theorem 200000 (by norm_num) (by norm_num [jsRound])).1

/-! ## Claim C1 -/

/-- Claim C1 as stated fails on the code: in the part_002 /save-order handler
an item-insert failure after a successful order insert (here: order id 7,
item-insert error "boom") is reported to the caller, but no compensating
delete runs, so a subsequent read of order id 7 still finds the row instead
of not-found. -/
theorem claim_C1_counterexample :
    (saveOrderP2 "ORD-1" ⟨Except.ok 7, some "boom"⟩ exReqP2 ⟨[], []⟩).1 =
      SaveRespP2.serverError "boom" ∧
    getOrderByIdP2 (saveOrderP2 "ORD-1" ⟨Except.ok 7, some "boom"⟩ exReqP2 ⟨[], []⟩).2 7 ≠
      none := by
  constructor
  · rfl
  · decide

/-- Claim C1 amended: in the index.js /save-order handlers (first and
service-role variants) an item-insert failure after a successful order insert
triggers the compensating delete of the order row before the handler returns,
the caller receives a server error carrying the original item-insert failure,
and a subsequent read of that order id returns not-found; the part_002
variant reports the item-insert error without deleting the order row. -/
theorem claim_C1_theorem :
    (∀ (env : EnvV1) (d : OrderReq) (db : DbV1) (e : String) (oid : Nat),
      env.connectionError = none → env.orderInsert = .ok oid →
      env.itemsInsertError = some e → validateOrderData d = [] →
      (saveOrderV1 env d db).1 = .serverError ("Failed to save order items: " ++ e) ∧
      getOrderById (saveOrderV1 env d db).2 oid = none) ∧
    (∀ (env : EnvP2) (d : OrderReqSR) (db : DbSR) (e : String) (oid : Nat) (l : List Item),
      env.orderInsert = .ok oid → env.itemsInsertError = some e →
      d.items = some l → l ≠ [] →
      present (d.shipping_info.bind ShippingInfo.firstName) = true →
      present (d.shipping_info.bind ShippingInfo.phone) = true →
      present (d.shipping_info.bind ShippingInfo.address) = true →
      (saveOrderSR env d db).1 = .serverError e ∧
      getOrderByIdSR (saveOrderSR env d db).2 oid = none) := by
  constructor
  · intro env d db e oid hc ho hi hv
    cases hsi : d.shipping_info with
    | none =>
        exfalso
        rw [validateOrderData, hsi] at hv
        simp [List.append_eq_nil] at hv
    | some si =>
        have hempty : (validateOrderData d).isEmpty = true := by rw [hv]; rfl
        constructor
        · simp [saveOrderV1, hempty, hc, ho, hi, hsi]
        · simp only [saveOrderV1, hempty, hc, ho, hi, hsi]
          simp [getOrderById, find?_filter_ne]
  · intro env d db e oid l ho hi hl hne h1 h2 h3
    have hlen : ¬ l.length = 0 := by simpa [List.length_eq_zero] using hne
    constructor
    · simp [saveOrderSR, hl, hlen, h1, h2, h3, ho, hi]
    · simp only [saveOrderSR, hl, hlen, h1, h2, h3, ho, hi]
      simp [getOrderByIdSR, find?_filter_ne]

/-- Concrete instance of the amended claim C1: a first-variant request whose
item batch insert fails with "boom" ends with the item-insert error reported
and order id 7 unreadable. -/
theorem claim_C1_witness :
    (saveOrderV1 ⟨none, Except.ok 7, some "boom"⟩ exReqV1 ⟨[], []⟩).1 =
      SaveResp.serverError ("Failed to save order items: " ++ "boom") ∧
    getOrderById (saveOrderV1 ⟨none, Except.ok 7, some "boom"⟩ exReqV1 ⟨[], []⟩).2 7 = none :=
  claim_C1_theorem.1 ⟨none, Except.ok 7, some "boom"⟩ exReqV1 ⟨[], []⟩ "boom" 7
    rfl rfl rfl (by decide)

/-! ## Claim C5 -/

/-- Claim C5 as stated fails on the code: the first /save-order variant stores
a caller-supplied payment_id on a cash-on-delivery order unchanged
(`payment_id: payment_id || null` passthrough), so the payment reference is
not null even though the payment method is cod. -/
theorem claim_C5_counterexample :
    codReqV1.payment_method = "cod" ∧
    (orderDataV1 codReqV1 exShip).payment_id = some "pay_client" ∧
    (orderDataV1 codReqV1 exShip).status = "pending" := by
  refine ⟨rfl, ?_, rfl⟩
  decide

/-- Claim C5 amended: every cash-on-delivery order is created with status
"pending" in both index.js variants; the service-role variant also forces both
payment references (payment_id, razorpay_order_id) to null regardless of any
caller-supplied payment_details, while the first variant stores a
caller-supplied payment_id as given (its row has no gateway order id column
at all). -/
theorem claim_C5_theorem :
    (∀ d : OrderReqSR, d.payment_method = "cod" →
      (orderDataSR d).payment_id = none ∧
      (orderDataSR d).razorpay_order_id = none ∧
      (orderDataSR d).status = "pending") ∧
    (∀ (d : OrderReq) (si : ShippingInfo), d.payment_method = "cod" →
      (orderDataV1 d si).status = "pending") := by
  constructor
  · intro d h
    refine ⟨?_, ?_, ?_⟩ <;>
      simp [orderDataSR, actualPaymentId, razorpayOrderIdOf, h]
  · intro d si h
    simp [orderDataV1, h]

/-- Concrete instance of the amended claim C5: a cod request carrying
caller-supplied payment identifiers still yields null references and status
"pending" in the service-role variant. -/
theorem claim_C5_witness :
    (orderDataSR codReqSR).payment_id = none ∧
    (orderDataSR codReqSR).razorpay_order_id = none ∧
    (orderDataSR codReqSR).status = "pending" :=
  claim_C5_theorem.1 codReqSR rfl

/-! ## Claim C6 -/

/-- Claim C6 as stated fails on the code: the service-role /save-order variant
does not validate total_amount at all, so a request with no total_amount
(items and its checked shipping fields fine) is not rejected; it goes through
to the insert and is saved. -/
theorem claim_C6_counterexample :
    (saveOrderSR ⟨Except.ok 7, none⟩ exReqSRnoTotal ⟨[], []⟩).1 = SaveRespSR.saved 7 ∧
    exReqSRnoTotal.total_amount = JsVal.absent := by
  constructor
  · rfl
  · rfl

/-- Claim C6 amended: the first variant's validateOrderData rejects, before
any write, every request with an empty or absent items array, a missing,
non-numeric or non-positive total_amount, or any missing required shipping
field, and the shipping error lists exactly the required fields that are
absent or empty; the service-role variant checks only the items array and the
firstName/phone/address fields, each with a single fixed message, and never
validates total_amount. -/
theorem claim_C6_theorem :
    (∀ (env : EnvV1) (d : OrderReq) (db : DbV1),
      validateOrderData d ≠ [] →
      saveOrderV1 env d db = (.validationFailed (validateOrderData d), db)) ∧
    (∀ d : OrderReq, validateOrderData d = [] ↔
      ((∃ l, d.items = some l ∧ l ≠ []) ∧ totalValid d.total_amount = true ∧
        ∃ si, d.shipping_info = some si ∧ missingShippingFields si = [])) ∧
    (∀ (si : ShippingInfo) (f : String),
      f ∈ missingShippingFields si ↔
        (f ∈ requiredShippingFields ∧ present (shippingField si f) = false)) := by
  refine ⟨?_, ?_, ?_⟩
  · intro env d db h
    have hempty : (validateOrderData d).isEmpty = false := by
      simpa [List.isEmpty_iff] using h
    simp [saveOrderV1, hempty]
  · intro d
    cases hit : d.items with
    | none => simp [validateOrderData, hit]
    | some l =>
        cases hsi : d.shipping_info with
        | none => simp [validateOrderData, hit, hsi]
        | some si =>
            by_cases hl : l.length = 0
            · have : l = [] := List.length_eq_zero.mp hl
              simp [validateOrderData, hit, hsi, hl, this]
            · have hlne : l ≠ [] := by simpa [List.length_eq_zero] using hl
              by_cases ht : totalValid d.total_amount
              · by_cases hm : missingShippingFields si = []
                · simp [validateOrderData, hit, hsi, hl, ht, hm, hlne]
                · simp [validateOrderData, hit, hsi, hl, ht, hm, hlne]
              · simp [validateOrderData, hit, hsi, hl, ht, hlne]
  · intro si f
    simp [missingShippingFields, List.mem_filter]

/-- Concrete instance of the amended claim C6: an empty items array is
rejected before any write, with the validation details returned. -/
theorem claim_C6_witness :
    saveOrderV1 ⟨none, Except.ok 1, none⟩ exReqEmptyItems ⟨[], []⟩ =
      (SaveResp.validationFailed (validateOrderData exReqEmptyItems), ⟨[], []⟩) :=
  claim_C6_theorem.1 ⟨none, Except.ok 1, none⟩ exReqEmptyItems ⟨[], []⟩ (by decide)

/-! ## Claim C10 -/

/-- Claim C10 confirmed: validateOrderData is insensitive to subtotal,
shipping_fee and tax, and the first variant's order row construction applies
parseFloat to those fields unconditionally, so an omitted field becomes NaN
(never a rejection, never a 0 default), and a request passing validation is
never answered with a validation error. -/
theorem claim_C10_theorem :
    ∀ (d : OrderReq) (si : ShippingInfo),
      (validateOrderData
          { d with subtotal := JsVal.absent, shipping_fee := JsVal.absent,
                   tax := JsVal.absent } =
        validateOrderData d) ∧
      (d.subtotal = JsVal.absent → (orderDataV1 d si).subtotal = JNum.nan) ∧
      (d.shipping_fee = JsVal.absent → (orderDataV1 d si).shipping_fee = JNum.nan) ∧
      (d.tax = JsVal.absent → (orderDataV1 d si).tax = JNum.nan) ∧
      (∀ (env : EnvV1) (db : DbV1), validateOrderData d = [] →
        ∀ es, (saveOrderV1 env d db).1 ≠ SaveResp.validationFailed es) := by
  intro d si
  refine ⟨rfl, ?_, ?_, ?_, ?_⟩
  · intro h
    simp [orderDataV1, h, jsParseFloat]
  · intro h
    simp [orderDataV1, h, jsParseFloat]
  · intro h
    simp [orderDataV1, h, jsParseFloat]
  · intro env db hv es
    have hempty : (validateOrderData d).isEmpty = true := by rw [hv]; rfl
    simp only [saveOrderV1, hempty, if_true]
    cases env.connectionError with
    | some e => simp
    | none =>
        cases d.shipping_info with
        | none => simp
        | some si2 =>
            cases env.orderInsert with
            | error e => simp
            | ok oid =>
                cases env.itemsInsertError with
                | some e => simp
                | none => simp

/-- Concrete instance of claim C10: a request that passes validation while
omitting subtotal and tax produces a row holding NaN in those columns. -/
theorem claim_C10_witness :
    (orderDataV1 exReqNoMon exShip).subtotal = JNum.nan ∧
    (orderDataV1 exReqNoMon exShip).tax = JNum.nan :=
  ⟨(claim_C10_theorem exReqNoMon exShip).2.1 rfl,
   (claim_C10_theorem exReqNoMon exShip).2.2.2.1 rfl⟩

/-! ## Claim C4 -/

/-- Claim C4 as stated fails on the code: the part_001 /verify-payment handler
accepts any non-empty signature without computing the digest, so
verification succeeds on a signature ("deadbeef") that is not the
HMAC-SHA256 digest of the order and payment ids under any secret of that
digest length discipline (here checked against the secret "testsecret"). -/
theorem claim_C4_counterexample :
    verifyPaymentP1 "order_1" "pay_1" "deadbeef" = VerifyResp.verified (some "pay_1") ∧
    "deadbeef" ≠ hmacSha256Hex "testsecret" ("order_1" ++ "|" ++ "pay_1") := by
  constructor
  · rfl
  · exact ne_hmacHex_of_length _ _ (by decide)

/-- Claim C4 amended: in the index.js first /verify-payment variant (with
non-empty order and payment ids) verification succeeds exactly when the
supplied signature equals the lowercase hex HMAC-SHA256 digest of
o + "|" + p under the configured secret, and changing any single character
of the correct signature makes verification fail; the part_001 variant
accepts any non-empty signature without verifying. -/
theorem claim_C4_theorem :
    ∀ (key : String) (updateThrows : Bool) (o p s : String) (db : List PayOrderRow),
      o ≠ "" → p ≠ "" →
      (((verifyPaymentV1 key updateThrows o p s db).1 = VerifyResp.verified (some p)) ↔
        s = hmacSha256Hex key (o ++ "|" ++ p)) ∧
      (∀ (l1 l2 : List Char) (c d : Char), c ≠ d →
        (hmacSha256Hex key (o ++ "|" ++ p)).data = l1 ++ d :: l2 →
        (verifyPaymentV1 key updateThrows o p (String.mk (l1 ++ c :: l2)) db).1 =
          VerifyResp.invalidSignature) := by
  intro key upd o p s db ho hp
  constructor
  · by_cases hs : s = ""
    · subst hs
      have hd := hmacHex_ne_empty key (o ++ "|" ++ p)
      constructor
      · intro h
        rw [verifyPaymentV1] at h
        rw [if_pos (by right; right; rfl)] at h
        exact absurd h (by simp)
      · intro h
        exact absurd h.symm hd
    · have hcond : ¬ (o = "" ∨ p = "" ∨ s = "") := by
        rintro (h | h | h)
        · exact ho h
        · exact hp h
        · exact hs h
      by_cases he : s = hmacSha256Hex key (o ++ "|" ++ p)
      · subst he
        have hd := hmacHex_ne_empty key (o ++ "|" ++ p)
        have hcond2 : ¬ (o = "" ∨ p = "" ∨ hmacSha256Hex key (o ++ "|" ++ p) = "") := by
          rintro (h | h | h)
          exacts [ho h, hp h, hd h]
        simp [verifyPaymentV1, hcond2]
      · simp [verifyPaymentV1, hcond, he]
  · intro l1 l2 c d hcd hdata
    have hsne : String.mk (l1 ++ c :: l2) ≠ "" := by
      intro e
      have h2 := congrArg String.data e
      simp at h2
    have hne : String.mk (l1 ++ c :: l2) ≠ hmacSha256Hex key (o ++ "|" ++ p) := by
      intro e
      have h2 := congrArg String.data e
      rw [hdata] at h2
      have h3 := List.append_cancel_left h2
      simp at h3
      exact hcd h3
    have hcond : ¬ (o = "" ∨ p = "" ∨ String.mk (l1 ++ c :: l2) = "") := by
      rintro (h | h | h)
      · exact ho h
      · exact hp h
      · exact hsne h
    simp [verifyPaymentV1, hcond, hne]

/-- Concrete instance of the amended claim C4: the correct digest verifies. -/
theorem claim_C4_witness :
    (verifyPaymentV1 "testsecret" false "order_1" "pay_1"
        (hmacSha256Hex "testsecret" ("order_1" ++ "|" ++ "pay_1")) []).1 =
      VerifyResp.verified (some "pay_1") := by
  have h := claim_C4_theorem "testsecret" false "order_1" "pay_1"
    (hmacSha256Hex "testsecret" ("order_1" ++ "|" ++ "pay_1")) [] (by decide) (by decide)
  exact h.1.mpr rfl

/-! ## Claim C7 -/

/-- Claim C7 as stated fails on the code: the service-role /verify-payment
variant answers a correctly signed request with a success body that does not
carry the payment id (its 200 body is success plus message only). -/
theorem claim_C7_counterexample :
    (verifyPaymentSR "testsecret" none "order_1" "pay_1"
        (hmacSha256Hex "testsecret" ("order_1" ++ "|" ++ "pay_1")) []).1 =
      VerifyResp.verified none := by
  have hd := hmacHex_ne_empty "testsecret" ("order_1" ++ "|" ++ "pay_1")
  have hcond : ¬ (("order_1" : String) = "" ∨ ("pay_1" : String) = "" ∨
      hmacSha256Hex "testsecret" ("order_1" ++ "|" ++ "pay_1") = "") := by
    rintro (h | h | h)
    · exact absurd h (by decide)
    · exact absurd h (by decide)
    · exact hd h
  simp [verifyPaymentSR, hcond]
  rw [if_neg (hmacHex_ne_empty "testsecret" "order_1|pay_1")]

/-- Claim C7 amended: for every correctly signed /verify-payment request (with
non-empty ids) both index.js variants answer success — the first variant's
body carries the payment id, the service-role variant's does not — the
matched order rows (payment_id column in the first variant, razorpay_order_id
column in the service-role variant) are updated to status "confirmed" with
the payment id recorded, and a failing status update (a throwing call in the
first variant, a returned error in the service-role variant) leaves the store
unchanged but never turns the response into an error. -/
theorem claim_C7_theorem :
    ∀ (key o p s : String) (db : List PayOrderRow) (updErr : Option String)
      (updThrows : Bool),
      o ≠ "" → p ≠ "" → s = hmacSha256Hex key (o ++ "|" ++ p) →
      ((verifyPaymentV1 key updThrows o p s db).1 = VerifyResp.verified (some p)) ∧
      ((verifyPaymentSR key updErr o p s db).1 = VerifyResp.verified none) ∧
      (updThrows = false →
        (verifyPaymentV1 key updThrows o p s db).2 = db.map (confirmRowV1 o p)) ∧
      (updThrows = true → (verifyPaymentV1 key updThrows o p s db).2 = db) ∧
      (updErr = none →
        (verifyPaymentSR key updErr o p s db).2 = db.map (confirmRowSR o p)) ∧
      (∀ e, updErr = some e → (verifyPaymentSR key updErr o p s db).2 = db) ∧
      (∀ r ∈ db, r.razorpay_order_id = some o →
        ({ r with status := "confirmed", payment_id := some p } : PayOrderRow) ∈
          (verifyPaymentSR key none o p s db).2) := by
  intro key o p s db updErr updThrows ho hp hsig
  subst hsig
  have hd := hmacHex_ne_empty key (o ++ "|" ++ p)
  have hcond : ¬ (o = "" ∨ p = "" ∨ hmacSha256Hex key (o ++ "|" ++ p) = "") := by
    rintro (h | h | h)
    · exact ho h
    · exact hp h
    · exact hd h
  refine ⟨?_, ?_, ?_, ?_, ?_, ?_, ?_⟩
  · simp [verifyPaymentV1, hcond]
  · simp [verifyPaymentSR, hcond]
  · intro h
    simp [verifyPaymentV1, hcond, h]
  · intro h
    simp [verifyPaymentV1, hcond, h]
  · intro h
    simp [verifyPaymentSR, hcond, h]
  · intro e h
    simp [verifyPaymentSR, hcond, h]
  · intro r hr hro
    have hmem := List.mem_map_of_mem (confirmRowSR o p) hr
    have heq : confirmRowSR o p r =
        ({ r with status := "confirmed", payment_id := some p } : PayOrderRow) := by
      simp [confirmRowSR, hro]
    rw [heq] at hmem
    simpa [verifyPaymentSR, hcond] using hmem

/-- Concrete instance of the amended claim C7: a correctly signed request
yields success in both variants (with and without the payment id echoed). -/
theorem claim_C7_witness :
    (verifyPaymentV1 "testsecret" false "order_1" "pay_1"
        (hmacSha256Hex "testsecret" ("order_1" ++ "|" ++ "pay_1")) [exPayRow]).1 =
      VerifyResp.verified (some "pay_1") ∧
    (verifyPaymentSR "testsecret" none "order_1" "pay_1"
        (hmacSha256Hex "testsecret" ("order_1" ++ "|" ++ "pay_1")) [exPayRow]).1 =
      VerifyResp.verified none := by
  have h := claim_C7_theorem "testsecret" "order_1" "pay_1"
    (hmacSha256Hex "testsecret" ("order_1" ++ "|" ++ "pay_1")) [exPayRow] none false
    (by decide) (by decide) rfl
  exact ⟨h.1, h.2.1⟩

/-! ## Claim C8 -/

/-- Claim C8 confirmed: in the first /verify-payment variant, a request with
all three fields present whose signature differs from the recomputed digest
gets the 400 invalid-signature answer and the stored orders are identical
before and after. -/
theorem claim_C8_theorem :
    ∀ (key : String) (updateThrows : Bool) (o p s : String) (db : List PayOrderRow),
      o ≠ "" → p ≠ "" → s ≠ "" → s ≠ hmacSha256Hex key (o ++ "|" ++ p) →
      verifyPaymentV1 key updateThrows o p s db = (VerifyResp.invalidSignature, db) := by
  intro key upd o p s db ho hp hs hne
  have hcond : ¬ (o = "" ∨ p = "" ∨ s = "") := by
    rintro (h | h | h)
    · exact ho h
    · exact hp h
    · exact hs h
  simp [verifyPaymentV1, hcond, hne]

/-- Concrete instance of claim C8: a wrong signature against a stored order
row leaves the row untouched and yields the invalid-signature answer. -/
theorem claim_C8_witness :
    verifyPaymentV1 "testsecret" false "order_1" "pay_1" "deadbeef" [exPayRow] =
      (VerifyResp.invalidSignature, [exPayRow]) :=
  claim_C8_theorem "testsecret" false "order_1" "pay_1" "deadbeef" [exPayRow]
    (by decide) (by decide) (by decide)
    (ne_hmacHex_of_length _ _ (by decide))

/-! ## Claim C9 -/

/-- Claim C9 confirmed: under a valid webhook signature (HMAC-SHA256 of the
raw body under the distinct webhook secret), a payment.captured event updates
the rows matched by the gateway order id to "confirmed", a payment.failed
event marks them "failed", and any other event type is answered 200 with the
store unchanged. -/
theorem claim_C9_theorem :
    ∀ (ws sig body event : String) (pay : WebhookPayment)
      (payload : Option WebhookPayment) (db : List PayOrderRow),
      ws ≠ "" → sig = hmacSha256Hex ws body →
      (webhookRazorpay (some ws) sig body "payment.captured" (some pay) db =
        (WebhookResp.received, db.map (updateRowWebhook pay.order_id pay.id "confirmed"))) ∧
      (webhookRazorpay (some ws) sig body "payment.failed" (some pay) db =
        (WebhookResp.received, db.map (updateRowWebhook pay.order_id pay.id "failed"))) ∧
      (event ≠ "payment.captured" → event ≠ "payment.failed" →
        webhookRazorpay (some ws) sig body event payload db = (WebhookResp.received, db)) ∧
      (∀ r ∈ db, r.payment_id = some pay.order_id →
        ({ r with status := "confirmed", payment_id := some pay.id } : PayOrderRow) ∈
          (webhookRazorpay (some ws) sig body "payment.captured" (some pay) db).2) := by
  intro ws sig body event pay payload db hws hsig
  subst hsig
  refine ⟨?_, ?_, ?_, ?_⟩
  · simp [webhookRazorpay, hws]
  · simp [webhookRazorpay, hws]
  · intro h1 h2
    cases payload with
    | none => simp [webhookRazorpay, hws, h1, h2]
    | some q => simp [webhookRazorpay, hws, h1, h2]
  · intro r hr hro
    have hmem := List.mem_map_of_mem (updateRowWebhook pay.order_id pay.id "confirmed") hr
    have heq : updateRowWebhook pay.order_id pay.id "confirmed" r =
        ({ r with status := "confirmed", payment_id := some pay.id } : PayOrderRow) := by
      simp [updateRowWebhook, hro]
    rw [heq] at hmem
    simpa [webhookRazorpay, hws] using hmem

/-- Concrete instance of claim C9: a validly signed order.paid event (an event
type outside captured/failed) is accepted with the store unchanged. -/
theorem claim_C9_witness :
    webhookRazorpay (some "whsec_1") (hmacSha256Hex "whsec_1" "rawbody") "rawbody"
        "order.paid" none [exPayRow] = (WebhookResp.received, [exPayRow]) := by
  have h := claim_C9_theorem "whsec_1" (hmacSha256Hex "whsec_1" "rawbody") "rawbody"
    "order.paid" ⟨"pay_1", "order_1"⟩ none [exPayRow] (by decide) rfl
  exact h.2.2.1 (by decide) (by decide)

end EcomBackend
